import Mathlib

/-!
Verification development for the AI provider orchestration layer of the
doc-comp-qar repository: model-family classification, wire-response
normalization, failover dispatch, usage metering and configuration masking,
embedded shallowly from `src/utils/ai-providers/bedrock-provider.ts`,
`src/utils/ai-providers/provider-manager.ts` and
`src/utils/aurora-ai-schema.sql`.
-/

namespace DocCompQar

/-! ## JavaScript-style string helpers

`jsOr o d` models the JavaScript expression `o || d` on an optional string:
`undefined` and the empty string are falsy, any other string is truthy.
`charsContains hay needle` models `hay.includes(needle)`.
-/

def jsOr (o : Option String) (d : String) : String :=
  match o with
  | none => d
  | some s => if s = "" then d else s

/-- A string as the list of its character codes. -/
def strCodes (s : String) : List Nat := s.toList.map Char.toNat

/-- ASCII lower-casing of one character code, modelling
JavaScript `toLowerCase()` (all model identifiers in the source are
ASCII). -/
def lowerCode (n : Nat) : Nat := if 65 ≤ n ∧ n ≤ 90 then n + 32 else n

def codesStartsWith : List Nat → List Nat → Bool
  | [], _ => true
  | _ :: _, [] => false
  | a :: as, b :: bs => a = b && codesStartsWith as bs

def codesContains : List Nat → List Nat → Bool
  | [], needle => needle.isEmpty
  | a :: rest, needle => codesStartsWith needle (a :: rest) || codesContains rest needle

/-- JavaScript `hay.includes(needle)` (also the SQL pattern `LIKE` with wildcards on both sides). -/
def strContains (hay needle : String) : Bool :=
  codesContains (strCodes hay) (strCodes needle)

/-- JavaScript `hay.toLowerCase().includes(needle)`. -/
def strContainsLower (hay needle : String) : Bool :=
  codesContains ((strCodes hay).map lowerCode) (strCodes needle)

/-! ## Model-family classification

From `bedrock-provider.ts`, `getModelFamily` (lines 308–318): the lowercased
model identifier is matched against vendor tags in a fixed order; the first
match decides the family, otherwise `"generic"`.
-/

/-- The substring checks of `getModelFamily`, in source order:
tag checked → family returned. -/
def bedrockChecks : List (String × String) :=
  [("claude", "claude"), ("llama", "llama"), ("titan", "titan"),
   ("jurassic", "ai21"), ("cohere", "cohere")]

/-- `getModelFamily` generalized over the order of its internal checks:
first check whose tag occurs in the lowercased model id wins,
default `"generic"`. -/
def classifyWith (checks : List (String × String)) (modelId : String) : String :=
  match checks.find? (fun c => strContainsLower modelId c.1) with
  | some c => c.2
  | none => "generic"

/-- `getModelFamily` of `bedrock-provider.ts`: the check order of the source. -/
def getModelFamily (modelId : String) : String :=
  classifyWith bedrockChecks modelId

/-! ## Pricing and usage tracking (`aurora-ai-schema.sql`)

`calculate_ai_usage_cost` is a plpgsql function built from `CASE ... END CASE`
*statements* without `ELSE` branches.  Per PostgreSQL semantics, a CASE
statement whose conditions all fail and which has no ELSE raises the
`CASE_NOT_FOUND` exception, so the function is modelled in `Except`.
The `DECIMAL(10,6)` return type rounds to six fractional digits
(half away from zero; all costs here are non-negative).
-/

inductive PgError where
  | caseNotFound
  deriving DecidableEq, Repr

/-- Rounding of a non-negative numeric value to `DECIMAL(10,6)`. -/
def pgRound6 (x : ℚ) : ℚ :=
  (⌊x * 1000000 + 1/2⌋ : ℚ) / 1000000

/-- `calculate_ai_usage_cost(provider_name, model_name, prompt_tokens_count,
completion_tokens_count)` from `aurora-ai-schema.sql` lines 196–227.
The outer simple CASE dispatches on the provider, the inner searched CASE on
`model_name LIKE` patterns; neither has an ELSE branch, so an
unmatched provider or model raises `CASE_NOT_FOUND`. -/
def calculate_ai_usage_cost (provider model : String)
    (promptTokens completionTokens : ℤ) : Except PgError ℚ :=
  if provider = "bedrock" then
    if strContains model "claude-3-sonnet" then
      .ok (pgRound6 ((promptTokens : ℚ) * (3/1000000) + (completionTokens : ℚ) * (15/1000000)))
    else if strContains model "claude-3-haiku" then
      .ok (pgRound6 ((promptTokens : ℚ) * (1/4000000) + (completionTokens : ℚ) * (5/4000000)))
    else if strContains model "titan" then
      .ok (pgRound6 ((promptTokens : ℚ) * (1/2000000) + (completionTokens : ℚ) * (3/2000000)))
    else .error .caseNotFound
  else if provider = "openai" then
    if model = "gpt-4" then
      .ok (pgRound6 ((promptTokens : ℚ) * (3/100000) + (completionTokens : ℚ) * (6/100000)))
    else if model = "gpt-3.5-turbo" then
      .ok (pgRound6 ((promptTokens : ℚ) * (1/1000000) + (completionTokens : ℚ) * (2/1000000)))
    else .error .caseNotFound
  else .error .caseNotFound

/-- A row of the `ai_usage_tracking` table as inserted by `track_ai_usage`. -/
structure UsageRow where
  user_id : String
  project_id : Option String
  ai_provider : String
  ai_model : String
  operation_type : String
  prompt_tokens : ℤ
  completion_tokens : ℤ
  total_tokens : ℤ
  cost_estimate : ℚ
  processing_time : Option ℤ
  success : Bool
  error_message : Option String
  deriving DecidableEq, Repr

/-- `track_ai_usage` from `aurora-ai-schema.sql` lines 230–260: computes the
cost via `calculate_ai_usage_cost` (whose exception, if any, propagates) and
inserts one row with `total_tokens = prompt_tokens + completion_tokens`. -/
def track_ai_usage (user : String) (project : Option String)
    (provider model operation : String) (promptTokens completionTokens : ℤ)
    (processingTime : Option ℤ) (successFlag : Bool) (errorMsg : Option String) :
    Except PgError UsageRow :=
  match calculate_ai_usage_cost provider model promptTokens completionTokens with
  | .error e => .error e
  | .ok cost =>
      .ok { user_id := user
            project_id := project
            ai_provider := provider
            ai_model := model
            operation_type := operation
            prompt_tokens := promptTokens
            completion_tokens := completionTokens
            total_tokens := promptTokens + completionTokens
            cost_estimate := cost
            processing_time := processingTime
            success := successFlag
            error_message := errorMsg }

/-! ## Wire responses and normalization (`bedrock-provider.ts`)

A Bedrock wire response is a JSON object; the fields the parser reads are
modelled as optional (absent = JavaScript `undefined`).  `parseResponse`
(lines 245–282) dispatches on the model family; `standardizeResponse` of
`provider-manager.ts` (lines 414–427) converts the parsed response into the
canonical `AIResponse` shape of the manager.
-/

structure UsageBlock where
  prompt_tokens : ℤ
  completion_tokens : ℤ
  total_tokens : ℤ
  deriving DecidableEq, Repr

/-- One element of the `results` array of a Titan wire response. -/
structure TitanResult where
  outputText : Option String
  completionReason : Option String
  deriving DecidableEq, Repr

/-- The fields of a raw Bedrock wire response that `parseResponse` reads. -/
structure WireResponse where
  completion : Option String
  stop_reason : Option String
  usage : Option UsageBlock
  generation : Option String
  results : List TitanResult
  text : Option String
  deriving DecidableEq, Repr

/-- The `BedrockResponse` shape produced by `parseResponse`.  `completion`
and `stop_reason` are optional because the claude branch passes the wire
fields through unchanged, so they can be `undefined` at runtime even though
the TypeScript interface declares them as `string`. -/
structure BedrockResponseL where
  completion : Option String
  stop_reason : Option String
  usage : Option UsageBlock
  model : String
  timestamp : String
  deriving DecidableEq, Repr

/-- `parseResponse` of `bedrock-provider.ts` (lines 245–282).  The switch on
the model family has explicit cases for claude, llama and titan; the ai21,
cohere and generic families all take the default branch.  `now` stands for
`new Date().toISOString()`. -/
def parseResponse (modelId : String) (w : WireResponse) (now : String) :
    BedrockResponseL :=
  if getModelFamily modelId = "claude" then
    { completion := w.completion
      stop_reason := w.stop_reason
      usage := w.usage
      model := modelId
      timestamp := now }
  else if getModelFamily modelId = "llama" then
    { completion := w.generation
      stop_reason := some (jsOr w.stop_reason "end_turn")
      usage := none
      model := modelId
      timestamp := now }
  else if getModelFamily modelId = "titan" then
    { completion := some (jsOr (w.results.head?.bind (·.outputText)) "")
      stop_reason := some (jsOr (w.results.head?.bind (·.completionReason)) "finished")
      usage := none
      model := modelId
      timestamp := now }
  else
    { completion := some (jsOr w.completion (jsOr w.text ""))
      stop_reason := some (jsOr w.stop_reason "finished")
      usage := none
      model := modelId
      timestamp := now }

inductive AIProviderType where
  | bedrock | openai | claude | azure | local
  deriving DecidableEq, Repr

/-- The canonical `AIResponse` of the manager; `stopReason` is the
`metadata.stopReason` entry. -/
structure AIResponseL where
  content : String
  usage : Option UsageBlock
  model : String
  provider : AIProviderType
  timestamp : String
  stopReason : Option String
  deriving DecidableEq, Repr

/-- `standardizeResponse` of `provider-manager.ts` (lines 414–427) applied to
a parsed Bedrock response: `content` is
`response.completion || response.content || response.text ||` empty, and a parsed
Bedrock response has no `content` or `text` property, so only `completion`
contributes; `model` and `timestamp` fall back to the literal `unknown`
and to `new Date().toISOString()`. -/
def standardizeResponse (r : BedrockResponseL) (provider : AIProviderType)
    (now : String) : AIResponseL :=
  { content := jsOr r.completion ""
    usage := r.usage
    model := jsOr (some r.model) "unknown"
    provider := provider
    timestamp := jsOr (some r.timestamp) now
    stopReason := r.stop_reason }

/-- The normalization pipeline of one successful Bedrock invocation:
`parseResponse` followed by `standardizeResponse`. -/
def normalize (modelId : String) (w : WireResponse)
    (provider : AIProviderType) (now : String) : AIResponseL :=
  standardizeResponse (parseResponse modelId w now) provider now

/-! ## Failover dispatch (`provider-manager.ts`)

`generateResponse` (lines 147–172) tries one provider; on any error it calls
`tryFallbackProviders` (lines 429–442) when the fallback list is non-empty.
`tryFallbackProviders` iterates over the fallback list and calls
`generateResponse` again with `useProvider` set — so a failure inside that
inner call re-enters `tryFallbackProviders` on the *full* fallback list.

The mutual recursion is embedded with an explicit fuel (maximum nesting
depth of `generateResponse` activations); a `none` verdict means the call is
still running when the fuel runs out, for every fuel — i.e. it diverges.
Alongside the verdict the embedding collects the ordered list of providers
actually invoked (one entry per `callProvider` invocation). -/

/-- The per-call behaviour of the `generateResponse` method of each provider
(deterministic for the duration of one orchestration call), plus which
providers are registered in the `providers` map of the manager. -/
structure ManagerState where
  currentProvider : AIProviderType
  fallbackProviders : List AIProviderType
  registered : AIProviderType → Bool
  behavior : AIProviderType → Except String BedrockResponseL

/-- The loop body of `tryFallbackProviders`: try each fallback in order with
the supplied recursive call; a thrown error means `continue`; exhausting the
list throws the aggregate `All providers failed, including fallbacks`
error.  The first
component accumulates the providers invoked. -/
def tryFallbackLoop
    (recur : AIProviderType → List AIProviderType × Option (Except String AIResponseL)) :
    List AIProviderType → List AIProviderType × Option (Except String AIResponseL)
  | [] => ([], some (.error "All providers failed, including fallbacks"))
  | p :: rest =>
    match recur p with
    | (log, some (.ok r)) => (log, some (.ok r))
    | (log, some (.error _)) =>
        let res := tryFallbackLoop recur rest
        (log ++ res.1, res.2)
    | (log, none) => (log, none)

/-- `generateResponse` of `provider-manager.ts` with fuel: attempt the chosen
provider (the `useProvider` override or `currentProvider`); on a thrown
error, if `fallbackProviders` is non-empty, return
the result of `tryFallbackProviders`, else rethrow. -/
def generateResponseF : Nat → ManagerState → Option AIProviderType → String →
    List AIProviderType × Option (Except String AIResponseL)
  | 0, _, _, _ => ([], none)
  | fuel + 1, st, useProvider, now =>
    let provider := useProvider.getD st.currentProvider
    let fallback := fun (_ : Unit) =>
      tryFallbackLoop (fun p => generateResponseF fuel st (some p) now)
        st.fallbackProviders
    if st.registered provider then
      match st.behavior provider with
      | .ok r => ([provider], some (.ok (standardizeResponse r provider now)))
      | .error e =>
        if st.fallbackProviders.isEmpty then ([provider], some (.error e))
        else
          let res := fallback ()
          (provider :: res.1, res.2)
    else
      if st.fallbackProviders.isEmpty then
        ([], some (.error "Provider not registered"))
      else fallback ()

/-! ## Provider status masking (`provider-manager.ts`, lines 447–475)

`getProviderStatus` builds, per provider, a `config` object
a spread of the stored config whose `apiKey` and `secretAccessKey` entries
are replaced: a truthy credential becomes the literal `***masked***`, a
falsy one becomes `undefined`.
The conditionals use JavaScript truthiness, so an empty-string credential is
*not* masked — it becomes `undefined` in the output. -/

/-- The stored `AIConfig` fields relevant to `getProviderStatus`. -/
structure ManagerConfig where
  provider : AIProviderType
  modelId : String
  maxTokens : Nat
  temperature : ℚ
  topP : Option ℚ
  region : Option String
  endpoint : Option String
  apiKey : Option String
  secretAccessKey : Option String
  privacyMode : Bool
  timeout : Option Nat
  deriving DecidableEq, Repr

/-- JavaScript truthiness of an optional string: `undefined` and the empty
string are falsy. -/
def jsTruthyStr (o : Option String) : Bool :=
  match o with
  | none => false
  | some s => if s = "" then false else true

/-- The conditional masking expression applied to each credential field:
truthy values become `***masked***`, falsy ones `undefined`. -/
def maskSecret (o : Option String) : Option String :=
  if jsTruthyStr o then some "***masked***" else none

/-- The `config` field of one entry of the result of `getProviderStatus`. -/
def statusConfig (config : ManagerConfig) : ManagerConfig :=
  { config with
      apiKey := maskSecret config.apiKey
      secretAccessKey := maskSecret config.secretAccessKey }

/-! ## Object-identity model of `getConfig` (`bedrock-provider.ts`)

`getConfig` (lines 472–477) returns a spread of `this.config`: a *shallow* copy —
a freshly allocated config object whose `stopSequences` property still holds
a reference to the own array of the provider.  To reason about mutation through
the returned object, config objects and string arrays live in an explicit
store addressed by naturals; `stopSequences` holds an array address
(`none` = `undefined`). -/

/-- The fields of a `BedrockConfig` object; `stopSequences` is a reference
into the array store. -/
structure CfgFields where
  region : String
  modelId : String
  maxTokens : Nat
  temperature : ℚ
  topP : Option ℚ
  stopSequences : Option Nat
  accessKeyId : Option String
  secretAccessKey : Option String
  sessionToken : Option String
  deriving DecidableEq, Repr

/-- The JavaScript object store: config objects and string arrays. -/
structure ObjStore where
  cfgObjs : Nat → CfgFields
  strArrs : Nat → List String

/-- A `BedrockProvider` holds a reference to its config object. -/
structure ProviderStateO where
  cfgRef : Nat
  endpoint : String

/-- `getConfig`: allocate a fresh object at `fresh` holding a field-wise copy
of the provider config (the spread of `this.config`) and return its
reference.  The array addresses inside the fields are copied, not the
arrays. -/
def getConfigO (σ : ObjStore) (st : ProviderStateO) (fresh : Nat) :
    Nat × ObjStore :=
  (fresh,
   { σ with cfgObjs := fun r =>
       if r = fresh then σ.cfgObjs st.cfgRef else σ.cfgObjs r })

/-- A caller assigning to properties of the object at reference `r`
(e.g. `cfg.maxTokens = 0`). -/
def writeCfgField (σ : ObjStore) (r : Nat) (upd : CfgFields → CfgFields) :
    ObjStore :=
  { σ with cfgObjs := fun r' =>
      if r' = r then upd (σ.cfgObjs r) else σ.cfgObjs r' }

/-- A caller mutating the string array at address `a` in place
(e.g. `cfg.stopSequences.length = 0` or `push`). -/
def writeStrArr (σ : ObjStore) (a : Nat) (v : List String) : ObjStore :=
  { σ with strArrs := fun a' => if a' = a then v else σ.strArrs a' }

/-- JavaScript `o || d` on an optional rational: `undefined` and `0` are
falsy (used for `this.config.topP || 0.9`). -/
def jsOrRat (o : Option ℚ) (d : ℚ) : ℚ :=
  match o with
  | none => d
  | some x => if x = 0 then d else x

/-- The wire-level content of a built request once its array references are
read out of the store (this is what `formatRequestBody` serializes). -/
structure ResolvedRequest where
  prompt : String
  modelId : String
  maxTokens : Nat
  temperature : ℚ
  topP : ℚ
  stopSequences : Option (List String)
  anthropicVersion : Option String
  deriving DecidableEq, Repr

/-- Read an optional array reference out of the store. -/
def resolveArr (σ : ObjStore) : Option Nat → Option (List String)
  | none => none
  | some a => some (σ.strArrs a)

/-- `buildRequest` of `bedrock-provider.ts` (lines 125–137) with its
family-specific builders, resolved against the store.  In the claude branch
`this.config.stopSequences ||` default takes the configured array
whenever the reference is present (an array object is always truthy),
otherwise the default; the titan branch defaults to `[]`; llama and generic
send no stop sequences. -/
def buildRequestO (σ : ObjStore) (st : ProviderStateO) (prompt : String) :
    ResolvedRequest :=
  let cfg := σ.cfgObjs st.cfgRef
  let fam := getModelFamily cfg.modelId
  if fam = "claude" then
    { prompt := "\n\nHuman: " ++ prompt ++ "\n\nAssistant:"
      modelId := cfg.modelId
      maxTokens := cfg.maxTokens
      temperature := cfg.temperature
      topP := jsOrRat cfg.topP (9/10)
      stopSequences := some ((resolveArr σ cfg.stopSequences).getD ["\n\nHuman:"])
      anthropicVersion := some "bedrock-2023-05-31" }
  else if fam = "llama" then
    { prompt := "<s>[INST] " ++ prompt ++ " [/INST]"
      modelId := cfg.modelId
      maxTokens := cfg.maxTokens
      temperature := cfg.temperature
      topP := jsOrRat cfg.topP (9/10)
      stopSequences := none
      anthropicVersion := none }
  else if fam = "titan" then
    { prompt := prompt
      modelId := cfg.modelId
      maxTokens := cfg.maxTokens
      temperature := cfg.temperature
      topP := jsOrRat cfg.topP (9/10)
      stopSequences := some ((resolveArr σ cfg.stopSequences).getD [])
      anthropicVersion := none }
  else
    { prompt := prompt
      modelId := cfg.modelId
      maxTokens := cfg.maxTokens
      temperature := cfg.temperature
      topP := jsOrRat cfg.topP (9/10)
      stopSequences := none
      anthropicVersion := none }

/-! ## Concrete failover scenarios -/

/-- A parsed response for a provider that succeeds. -/
def okResp : BedrockResponseL :=
  { completion := some "ok"
    stop_reason := some "end_turn"
    usage := none
    model := "anthropic.claude-3-sonnet-20240229-v1:0"
    timestamp := "t" }

/-- Scenario: primary `bedrock` fails, fallback chain `[openai, claude]`,
`openai` fails, `claude` would succeed (the K = 1 failover of the claim). -/
def stK1 : ManagerState :=
  { currentProvider := .bedrock
    fallbackProviders := [.openai, .claude]
    registered := fun _ => true
    behavior := fun p =>
      match p with
      | .claude => .ok okResp
      | _ => .error "simulated provider outage" }

/-- Scenario: primary `bedrock` fails and every fallback
(`[openai, claude]`) fails. -/
def stAllFail : ManagerState :=
  { currentProvider := .bedrock
    fallbackProviders := [.openai, .claude]
    registered := fun _ => true
    behavior := fun _ => .error "simulated provider outage" }

/-! ## Concrete inputs used by the theorems below -/

/-- A wire response with every field absent (the JSON object without the
recognized keys). -/
def emptyWire : WireResponse :=
  { completion := none, stop_reason := none, usage := none,
    generation := none, results := [], text := none }

/-- The checks of `getModelFamily` with the claude and llama checks
swapped. -/
def swappedChecks : List (String × String) :=
  [("llama", "llama"), ("claude", "claude"), ("titan", "titan"),
   ("jurassic", "ai21"), ("cohere", "cohere")]

/-- The checks of `getModelFamily` in reverse order. -/
def reversedChecks : List (String × String) :=
  [("cohere", "cohere"), ("jurassic", "ai21"), ("titan", "titan"),
   ("llama", "llama"), ("claude", "claude")]

/-- The row inserted by `track_ai_usage` for a claude-3-sonnet call with
100 prompt and 50 completion tokens. -/
def sonnetRow : UsageRow :=
  { user_id := "u", project_id := none, ai_provider := "bedrock",
    ai_model := "anthropic.claude-3-sonnet-20240229-v1:0",
    operation_type := "document_analysis",
    prompt_tokens := 100, completion_tokens := 50, total_tokens := 150,
    cost_estimate := 21/20000, processing_time := none,
    success := true, error_message := none }

/-- A configured claude-family Bedrock config object whose `stopSequences`
property points at array address 0. -/
def cfgClaude : CfgFields :=
  { region := "us-east-1", modelId := "anthropic.claude-v2",
    maxTokens := 2000, temperature := 3/10, topP := some (9/10),
    stopSequences := some 0, accessKeyId := none, secretAccessKey := none,
    sessionToken := none }

/-- An object store holding `cfgClaude` at every config address and the
default claude stop-sequence array at every array address. -/
def storeClaude : ObjStore :=
  { cfgObjs := fun _ => cfgClaude, strArrs := fun _ => ["\n\nHuman:"] }

/-- The provider whose config object lives at address 0. -/
def provClaude : ProviderStateO :=
  { cfgRef := 0, endpoint := "https://bedrock-runtime.us-east-1.amazonaws.com" }

/-- The store after `getConfig` copied the config into fresh address 1. -/
def storeAfterGetConfig : ObjStore := (getConfigO storeClaude provClaude 1).2

/-- A stored manager config whose `apiKey` is set to the empty string. -/
def cfgEmptyKey : ManagerConfig :=
  { provider := .openai, modelId := "gpt-4", maxTokens := 2000,
    temperature := 3/10, topP := none, region := none, endpoint := none,
    apiKey := some "", secretAccessKey := some "aws-secret",
    privacyMode := false, timeout := none }

/-- The same stored config with a non-empty `apiKey`. -/
def cfgLiveKey : ManagerConfig := { cfgEmptyKey with apiKey := some "sk-live-123" }

/-! ## Helper lemmas -/

/-- If exactly one element of a list satisfies `p`, then `find?` returns it
regardless of where it sits in the list. -/
theorem find?_eq_some_of_unique {α : Type} (p : α → Bool) (x : α) :
    ∀ (l : List α), x ∈ l → p x = true → (∀ y ∈ l, p y = true → y = x) →
    l.find? p = some x := by
  intro l
  induction l with
  | nil => intro hx; exact absurd hx (List.not_mem_nil x)
  | cons a t ih =>
    intro hx hpx hu
    by_cases ha : p a = true
    · rw [List.find?_cons_of_pos _ ha, hu a (List.mem_cons_self a t) ha]
    · rw [List.find?_cons_of_neg _ (by simpa using ha)]
      have hxt : x ∈ t := by
        rcases List.mem_cons.mp hx with h | h
        · rw [h] at hpx; exact absurd hpx ha
        · exact h
      exact ih hxt hpx (fun y hy => hu y (List.mem_cons_of_mem a hy))

/-! ## C4 — order (in)dependence of the model-family classification -/

/-- C4, counterexample: the claim that re-ordering the internal substring
checks of `getModelFamily` never changes the classification is false: on the
input `claude-llama`, the source order classifies `claude` while the
permutation with the llama check first classifies `llama`. -/
theorem getModelFamily_order_dependent :
    bedrockChecks.Perm swappedChecks ∧
    classifyWith bedrockChecks "claude-llama" = "claude" ∧
    classifyWith swappedChecks "claude-llama" = "llama" :=
  ⟨by decide, by decide, by decide⟩

/-- C4, amended: for every model identifier in which exactly one of the five
vendor tags occurs (as a case-insensitive substring), every re-ordering of
the internal checks yields the same family as the source order. -/
theorem getModelFamily_order_independent
    (cs : List (String × String)) (hperm : bedrockChecks.Perm cs)
    (s : String) (c : String × String) (hc : c ∈ bedrockChecks)
    (hm : strContainsLower s c.1 = true)
    (hu : ∀ d ∈ bedrockChecks, strContainsLower s d.1 = true → d = c) :
    classifyWith cs s = classifyWith bedrockChecks s := by
  have h1 : bedrockChecks.find? (fun d => strContainsLower s d.1) = some c :=
    find?_eq_some_of_unique _ c bedrockChecks hc hm hu
  have h2 : cs.find? (fun d => strContainsLower s d.1) = some c :=
    find?_eq_some_of_unique _ c cs (hperm.subset hc) hm
      (fun y hy => hu y (hperm.symm.subset hy))
  unfold classifyWith
  rw [h1, h2]

/-- C4, witness: the reversed check order classifies the real claude-3-sonnet
model identifier exactly as the source order does. -/
theorem getModelFamily_order_independent_witness :
    (bedrockChecks.Perm reversedChecks ∧
     ("claude", "claude") ∈ bedrockChecks ∧
     strContainsLower "anthropic.claude-3-sonnet-20240229-v1:0" "claude" = true ∧
     (∀ d ∈ bedrockChecks,
        strContainsLower "anthropic.claude-3-sonnet-20240229-v1:0" d.1 = true →
        d = ("claude", "claude"))) ∧
    classifyWith reversedChecks "anthropic.claude-3-sonnet-20240229-v1:0" =
      classifyWith bedrockChecks "anthropic.claude-3-sonnet-20240229-v1:0" :=
  ⟨⟨by decide, by decide, by decide, by decide⟩,
   getModelFamily_order_independent reversedChecks (by decide) _
     ("claude", "claude") (by decide) (by decide) (by decide)⟩

/-! ## C7 — unpriced provider/model pairs raise instead of returning zero -/

/-- C7: `calculate_ai_usage_cost` does not return zero for provider/model
pairs without a pricing entry — the plpgsql CASE statements have no ELSE
branch, so such calls raise `CASE_NOT_FOUND`: here for an unknown provider
and for a bedrock model with no matching pattern. -/
theorem calculate_ai_usage_cost_unknown_raises :
    calculate_ai_usage_cost "claude" "claude-3-sonnet-20240229" 100 100 =
      .error .caseNotFound ∧
    calculate_ai_usage_cost "bedrock" "ai21.j2-ultra-v1" 10 10 =
      .error .caseNotFound :=
  ⟨rfl, rfl⟩

/-! ## C8 — total tokens is the sum of the parts -/

/-- C8: every row that `track_ai_usage` inserts satisfies
`total_tokens = prompt_tokens + completion_tokens`. -/
theorem track_ai_usage_total_eq_sum
    (user : String) (project : Option String)
    (provider model operation : String) (promptTokens completionTokens : ℤ)
    (processingTime : Option ℤ) (successFlag : Bool) (errorMsg : Option String)
    (row : UsageRow)
    (h : track_ai_usage user project provider model operation promptTokens
          completionTokens processingTime successFlag errorMsg = .ok row) :
    row.total_tokens = row.prompt_tokens + row.completion_tokens := by
  unfold track_ai_usage at h
  cases hc : calculate_ai_usage_cost provider model promptTokens completionTokens with
  | error e => rw [hc] at h; exact absurd h (by simp)
  | ok cost =>
    rw [hc] at h
    injection h with h2
    rw [← h2]

/-- C8, witness: a concrete claude-3-sonnet usage row. -/
theorem track_ai_usage_total_eq_sum_witness :
    track_ai_usage "u" none "bedrock" "anthropic.claude-3-sonnet-20240229-v1:0"
      "document_analysis" 100 50 none true none = .ok sonnetRow ∧
    sonnetRow.total_tokens = sonnetRow.prompt_tokens + sonnetRow.completion_tokens := by
  have hc : calculate_ai_usage_cost "bedrock"
      "anthropic.claude-3-sonnet-20240229-v1:0" 100 50 = .ok (21/20000) := by
    have hstr : strContains "anthropic.claude-3-sonnet-20240229-v1:0"
        "claude-3-sonnet" = true := rfl
    simp only [calculate_ai_usage_cost, hstr]
    norm_num [pgRound6]
  have h : track_ai_usage "u" none "bedrock"
      "anthropic.claude-3-sonnet-20240229-v1:0"
      "document_analysis" 100 50 none true none = .ok sonnetRow := by
    unfold track_ai_usage
    rw [hc]
    exact rfl
  exact ⟨h, track_ai_usage_total_eq_sum "u" none "bedrock"
    "anthropic.claude-3-sonnet-20240229-v1:0" "document_analysis"
    100 50 none true none sonnetRow h⟩

/-! ## C5 — normalization of a wire response without a usage block -/

/-- C5, counterexample: for the claude family and a wire response without a
usage block, normalization does not return zeroed token counts — the
canonical response carries no usage block at all (`usage` is absent, not
`some` zeros). -/
theorem normalize_missing_usage_not_zeroed :
    (normalize "anthropic.claude-v2" emptyWire .bedrock "t").usage = none ∧
    (normalize "anthropic.claude-v2" emptyWire .bedrock "t").usage ≠
      some { prompt_tokens := 0, completion_tokens := 0, total_tokens := 0 } :=
  ⟨rfl, by
    intro hc
    rw [show (normalize "anthropic.claude-v2" emptyWire .bedrock "t").usage
        = none from rfl] at hc
    exact Option.noConfusion hc⟩

/-- C5, amended: for every model family and every wire response whose usage
block is missing, normalization returns a canonical response whose usage
block is absent (and, being a total function, never raises an error). -/
theorem normalize_missing_usage_absent
    (modelId : String) (w : WireResponse) (p : AIProviderType) (now : String)
    (h : w.usage = none) :
    (normalize modelId w p now).usage = none := by
  unfold normalize standardizeResponse parseResponse
  split_ifs <;> simp [h]

/-- C5, witness: the claude family on the empty wire response. -/
theorem normalize_missing_usage_absent_witness :
    emptyWire.usage = none ∧
    (normalize "anthropic.claude-v2" emptyWire .bedrock "t").usage = none :=
  ⟨rfl, normalize_missing_usage_absent "anthropic.claude-v2" emptyWire .bedrock "t" rfl⟩

/-! ## C6 — normalization of a wire response without a text field -/

/-- C6, counterexample: for the llama family, a wire response lacking every
recognized text field normalizes to empty content but finish reason
`end_turn`, not `finished`. -/
theorem normalize_missing_text_llama_not_finished :
    (normalize "meta.llama2-70b-chat-v1" emptyWire .bedrock "t").content = "" ∧
    (normalize "meta.llama2-70b-chat-v1" emptyWire .bedrock "t").stopReason =
      some "end_turn" ∧
    (normalize "meta.llama2-70b-chat-v1" emptyWire .bedrock "t").stopReason ≠
      some "finished" :=
  ⟨rfl, rfl, by
    intro hc
    rw [show (normalize "meta.llama2-70b-chat-v1" emptyWire .bedrock "t").stopReason
        = some "end_turn" from rfl] at hc
    simp at hc⟩

/-- C6, amended: a wire response lacking every recognized text and
stop-reason field normalizes, for every family, to empty content and no
error; the finish reason defaults to `finished` only for the titan and
unrecognized families, to `end_turn` for llama, and is passed through
absent for claude. -/
theorem normalize_missing_text_content_empty
    (modelId : String) (w : WireResponse) (p : AIProviderType) (now : String)
    (hcomp : w.completion = none) (hgen : w.generation = none)
    (hres : w.results = []) (htext : w.text = none)
    (hstop : w.stop_reason = none) :
    (normalize modelId w p now).content = "" ∧
    (normalize modelId w p now).stopReason =
      (if getModelFamily modelId = "claude" then none
       else if getModelFamily modelId = "llama" then some "end_turn"
       else some "finished") := by
  unfold normalize standardizeResponse parseResponse
  split_ifs <;> simp_all [jsOr]

/-- C6, witness: the llama family on the empty wire response. -/
theorem normalize_missing_text_content_empty_witness :
    (emptyWire.completion = none ∧ emptyWire.stop_reason = none) ∧
    ((normalize "meta.llama2-70b-chat-v1" emptyWire .bedrock "t").content = "" ∧
     (normalize "meta.llama2-70b-chat-v1" emptyWire .bedrock "t").stopReason =
       (if getModelFamily "meta.llama2-70b-chat-v1" = "claude" then none
        else if getModelFamily "meta.llama2-70b-chat-v1" = "llama" then some "end_turn"
        else some "finished")) :=
  ⟨⟨rfl, rfl⟩,
   normalize_missing_text_content_empty "meta.llama2-70b-chat-v1" emptyWire
     .bedrock "t" rfl rfl rfl rfl rfl⟩

/-! ## C1–C3 — the failover loop re-enters itself

When the provider attempted by the inner `generateResponse` call fails,
that call returns the result of a fresh `tryFallbackProviders` pass over the
*full* fallback list, so the loop never advances past the first failing
fallback.  The two lemmas below characterize every run with primary
`bedrock` and fallback list `[openai, claude]` in which `bedrock` and
`openai` fail. -/

/-- In a state whose fallback list is `[openai, claude]` and whose `openai`
provider fails, the call `generateResponse` with `useProvider = openai`
invokes `openai` once per available nesting level and never returns. -/
theorem gRF_first_fallback_diverges (st : ManagerState) (e : String) (now : String)
    (hfb : st.fallbackProviders = [.openai, .claude])
    (hreg : st.registered .openai = true)
    (hbeh : st.behavior .openai = .error e) :
    ∀ f, generateResponseF f st (some .openai) now =
      (List.replicate f .openai, none) := by
  intro f
  induction f with
  | zero => rfl
  | succ g ih =>
    simp only [generateResponseF, Option.getD_some, hreg, hbeh, hfb,
      if_true, List.isEmpty_cons, tryFallbackLoop, ih, List.replicate_succ]
    simp

/-- In a state with primary `bedrock` failing, fallback list
`[openai, claude]`, and `openai` failing, the top-level `generateResponse`
call invokes `bedrock` once and then `openai` once per remaining nesting
level, and never returns — `claude` is never reached. -/
theorem gRF_primary_diverges (st : ManagerState) (e e' : String) (now : String)
    (hfb : st.fallbackProviders = [.openai, .claude])
    (hcur : st.currentProvider = .bedrock)
    (hregB : st.registered .bedrock = true)
    (hbehB : st.behavior .bedrock = .error e')
    (hregO : st.registered .openai = true)
    (hbehO : st.behavior .openai = .error e) :
    ∀ f, generateResponseF (f + 1) st none now =
      (.bedrock :: List.replicate f .openai, none) := by
  intro f
  simp only [generateResponseF, Option.getD_none, hcur, hregB, hbehB, hfb,
    if_true, List.isEmpty_cons, tryFallbackLoop,
    gRF_first_fallback_diverges st e now hfb hregO hbehO f]
  simp

/-- C1: in the K = 1 scenario (primary `bedrock` fails, first fallback
`openai` fails, second fallback `claude` would succeed), `generateResponse`
never returns any result at any recursion depth, and the succeeding
provider `claude` is never attempted — so no canonical response tagged with
provider K + 1 (and no per-attempt usage-record list) is ever produced. -/
theorem generateResponse_succeeding_fallback_unreachable :
    ∀ fuel, (generateResponseF fuel stK1 none "t").2 = none ∧
      AIProviderType.claude ∉ (generateResponseF fuel stK1 none "t").1 := by
  intro fuel
  cases fuel with
  | zero => exact ⟨rfl, by simp [generateResponseF]⟩
  | succ f =>
    rw [gRF_primary_diverges stK1 "simulated provider outage"
      "simulated provider outage" "t" rfl rfl rfl rfl rfl rfl f]
    refine ⟨rfl, ?_⟩
    simp [List.mem_replicate]

/-- C2: when the primary and every fallback fail, `generateResponse` never
returns at any recursion depth — in particular it never surfaces an
aggregated error carrying the individual per-provider failures. -/
theorem generateResponse_all_fail_no_aggregate :
    ∀ fuel, (generateResponseF fuel stAllFail none "t").2 = none := by
  intro fuel
  cases fuel with
  | zero => rfl
  | succ f =>
    rw [gRF_primary_diverges stAllFail "simulated provider outage"
      "simulated provider outage" "t" rfl rfl rfl rfl rfl rfl f]

/-- C3: with all providers failing, the attempt log is
`bedrock` followed by `f` repetitions of `openai`: the same fallback
provider is re-attempted once per nesting level (unboundedly many times),
`claude` is never attempted, and the call does not terminate — the code
does not stop after 1 + chain-length attempts. -/
theorem generateResponse_reattempts_unbounded :
    ∀ f, (generateResponseF (f + 1) stAllFail none "t").1 =
        .bedrock :: List.replicate f .openai ∧
      ((generateResponseF (f + 1) stAllFail none "t").1.count .openai = f) ∧
      AIProviderType.claude ∉ (generateResponseF (f + 1) stAllFail none "t").1 := by
  intro f
  rw [gRF_primary_diverges stAllFail "simulated provider outage"
    "simulated provider outage" "t" rfl rfl rfl rfl rfl rfl f]
  refine ⟨rfl, ?_, ?_⟩
  · simp [List.count_cons, List.count_replicate]
  · simp [List.mem_replicate]

/-! ## C9 — getConfig returns a shallow copy -/

/-- `buildRequest` depends on the store only through the config object of
the provider and the array store. -/
theorem resolveArr_congr (σ σ' : ObjStore) (h2 : σ'.strArrs = σ.strArrs) :
    ∀ o, resolveArr σ' o = resolveArr σ o := by
  intro o
  cases o <;> simp [resolveArr, h2]

theorem buildRequestO_congr (σ σ' : ObjStore) (st : ProviderStateO) (p : String)
    (h1 : σ'.cfgObjs st.cfgRef = σ.cfgObjs st.cfgRef)
    (h2 : σ'.strArrs = σ.strArrs) :
    buildRequestO σ' st p = buildRequestO σ st p := by
  unfold buildRequestO
  rw [h1]
  simp only [resolveArr_congr σ σ' h2]

/-- C9, amended (field part): assigning to the *own fields* of the object
returned by `getConfig` does not change subsequent request building by the
provider. -/
theorem getConfig_field_mutation_no_effect
    (σ : ObjStore) (st : ProviderStateO) (fresh : Nat)
    (upd : CfgFields → CfgFields) (prompt : String)
    (h : fresh ≠ st.cfgRef) :
    buildRequestO (writeCfgField (getConfigO σ st fresh).2 fresh upd) st prompt =
      buildRequestO σ st prompt := by
  apply buildRequestO_congr
  · simp [writeCfgField, getConfigO, Ne.symm h]
  · rfl

/-- C9, witness: a concrete field assignment on the copy at fresh
address 1. -/
theorem getConfig_field_mutation_no_effect_witness :
    ((1 : Nat) ≠ provClaude.cfgRef) ∧
    buildRequestO (writeCfgField (getConfigO storeClaude provClaude 1).2 1
        (fun c => { c with maxTokens := 0 })) provClaude "hi" =
      buildRequestO storeClaude provClaude "hi" :=
  ⟨by decide,
   getConfig_field_mutation_no_effect storeClaude provClaude 1
     (fun c => { c with maxTokens := 0 }) "hi" (by decide)⟩

/-- C9, counterexample: the copy returned by `getConfig` shares its
`stopSequences` array with the internal config (same address), so mutating
that array through the copy changes what `buildRequest` subsequently sends —
the claim that any mutation of the returned object leaves all subsequent
operations unchanged is false. -/
theorem getConfig_shared_array_mutation_observable :
    (storeAfterGetConfig.cfgObjs 1).stopSequences =
      (storeClaude.cfgObjs provClaude.cfgRef).stopSequences ∧
    (buildRequestO (writeStrArr storeAfterGetConfig 0 []) provClaude "hi").stopSequences
      = some [] ∧
    (buildRequestO storeClaude provClaude "hi").stopSequences
      = some ["\n\nHuman:"] ∧
    buildRequestO (writeStrArr storeAfterGetConfig 0 []) provClaude "hi" ≠
      buildRequestO storeClaude provClaude "hi" :=
  ⟨rfl, rfl, rfl, by
    intro hc
    have h2 := congrArg ResolvedRequest.stopSequences hc
    rw [show (buildRequestO (writeStrArr storeAfterGetConfig 0 []) provClaude
          "hi").stopSequences = some [] from rfl,
        show (buildRequestO storeClaude provClaude "hi").stopSequences
          = some ["\n\nHuman:"] from rfl] at h2
    simp at h2⟩

/-! ## C10 — masking of configured secrets -/

/-- C10, counterexample: two manager states that differ only in the value
of a set `apiKey` (empty string vs. non-empty) produce different `config`
fields in `getProviderStatus` — an empty-string credential is replaced by
`undefined`, not by the masking constant, because the conditional uses
JavaScript truthiness. -/
theorem statusConfig_empty_key_distinguishable :
    cfgEmptyKey.apiKey.isSome = true ∧
    cfgLiveKey.apiKey.isSome = true ∧
    (statusConfig cfgEmptyKey).apiKey = none ∧
    (statusConfig cfgLiveKey).apiKey = some "***masked***" ∧
    statusConfig cfgEmptyKey ≠ statusConfig cfgLiveKey :=
  ⟨rfl, rfl, rfl, rfl, by
    intro hc
    have h2 := congrArg ManagerConfig.apiKey hc
    rw [show (statusConfig cfgEmptyKey).apiKey = none from rfl,
        show (statusConfig cfgLiveKey).apiKey = some "***masked***" from rfl] at h2
    simp at h2⟩

/-- C10, amended: for configured secrets that are set *and non-empty*, the
`config` field of the returned status is independent of the secret values —
both are replaced by the constant `***masked***`. -/
theorem statusConfig_masks_nonempty_secrets
    (c : ManagerConfig) (k1 k2 s1 s2 : String)
    (hk1 : k1 ≠ "") (hk2 : k2 ≠ "") (hs1 : s1 ≠ "") (hs2 : s2 ≠ "") :
    statusConfig { c with apiKey := some k1, secretAccessKey := some s1 } =
      statusConfig { c with apiKey := some k2, secretAccessKey := some s2 } := by
  simp [statusConfig, maskSecret, jsTruthyStr, hk1, hk2, hs1, hs2]

/-- C10, witness: two distinct non-empty key pairs yield identical status
configs. -/
theorem statusConfig_masks_nonempty_secrets_witness :
    (("sk-1" : String) ≠ "" ∧ ("sk-2" : String) ≠ "" ∧
     ("aws-1" : String) ≠ "" ∧ ("aws-2" : String) ≠ "") ∧
    statusConfig { cfgEmptyKey with apiKey := some "sk-1", secretAccessKey := some "aws-1" } =
      statusConfig { cfgEmptyKey with apiKey := some "sk-2", secretAccessKey := some "aws-2" } :=
  ⟨⟨by decide, by decide, by decide, by decide⟩,
   statusConfig_masks_nonempty_secrets cfgEmptyKey "sk-1" "sk-2" "aws-1" "aws-2"
     (by decide) (by decide) (by decide) (by decide)⟩

end DocCompQar
